import Mathlib

/-!
Verification of the content-pipeline core of the renault-content-ai repository.

The TypeScript sources are shallowly embedded: pure functions become Lean
functions, the LLM calls and the database are opaque oracles passed in as
parameters, fallible code returns `Except`, and JS numbers that carry
fractional values (confidence scores, compliance scores, approval rates)
are modelled as rationals.
-/

namespace RenaultContent

/-! ## Exact rational arithmetic helpers

JS numbers are modelled by `ℚ`.  The arithmetic below is phrased through
`Rat.divInt`/`mkRat`/`Rat.floor` (which evaluate by kernel reduction) and
computes exactly the same rational values as the corresponding field
operations. -/

/-- `q * 100` (exact: `(num * 100) / den`). -/
def qscale100 (q : ℚ) : ℚ :=
  Rat.divInt (q.num * 100) q.den

/-- JS `Math.round q` (half away from zero rounds up, as `⌊q + 1/2⌋`):
`⌊(2 * num + den) / (2 * den)⌋`. -/
def jsRound (q : ℚ) : ℤ :=
  Rat.floor (Rat.divInt (2 * q.num + q.den) (2 * q.den))

/-! ## String helpers (JS `String.prototype` methods and regex tests) -/

/-- JS `s.toLowerCase()`, mapped characterwise. -/
def strToLower (s : String) : String :=
  String.mk (s.data.map Char.toLower)

/-- JS `s.trim()`: strip leading and trailing whitespace. -/
def strTrim (s : String) : String :=
  String.mk (((s.data.dropWhile Char.isWhitespace).reverse.dropWhile
    Char.isWhitespace).reverse)

/-- Substring test on character lists: `hasInfix p t` is true iff `p` occurs
contiguously in `t`.  Models JS `t.includes(p)` after unpacking to chars. -/
def hasInfix (p : List Char) : List Char → Bool
  | [] => p.isEmpty
  | c :: rest => List.isPrefixOf p (c :: rest) || hasInfix p rest

/-- JS `s.includes(pat)` (case sensitive). -/
def strIncludes (s pat : String) : Bool :=
  hasInfix pat.data s.data

/-- Case-insensitive substring test, modelling a bare `/pat/gi` regex test. -/
def strIncludesCI (s pat : String) : Bool :=
  hasInfix (strToLower pat).data (strToLower s).data

/-- JS regex word character class `\w = [A-Za-z0-9_]`. -/
def isWordChar (c : Char) : Bool :=
  c.isAlphanum || c == '_'

/-- A `\b` boundary holds before the current position when there is no
previous character or the previous character is not a word character. -/
def boundaryOk (prev : Option Char) : Bool :=
  match prev with
  | none => true
  | some c => !isWordChar c

/-- `matchHere p t` : `p` occurs at the head of `t` and is followed by a
non-word character or the end of input (the closing `\b`). -/
def matchHere (p t : List Char) : Bool :=
  List.isPrefixOf p t &&
    (match t.drop p.length with
     | [] => true
     | c :: _ => !isWordChar c)

/-- Scan `t` for a `\b p \b` match, carrying the previous character. -/
def scanWord (p : List Char) (prev : Option Char) : List Char → Bool
  | [] => false
  | c :: rest => (boundaryOk prev && matchHere p (c :: rest)) || scanWord p (some c) rest

/-- Test of the regex `new RegExp('\\b' + word + '\\b', 'gi')` against `text`. -/
def wordMatchCI (word text : String) : Bool :=
  scanWord (strToLower word).data none (strToLower text).data

/-! ## Fact record model (`src/types/agent-types.ts`) -/

/-- Fact categories, from the `Fact` interface in `agent-types.ts`. -/
inductive FactCategory
  | technical
  | marketing
  | general
  | specification
deriving DecidableEq, Repr

/-- The canonical unit of verified information (`Fact` in `agent-types.ts`). -/
structure Fact where
  claim : String
  source : String
  sourceUrl : Option String := none
  confidence : ℚ
  category : FactCategory
deriving DecidableEq, Repr

/-- A rejected fact carries its rejection reason
(`Fact & \x7b rejectionReason \x7d` in `fact-validator`). -/
structure RejectedFact extends Fact where
  rejectionReason : String
deriving DecidableEq, Repr

/-- Research stage output (`ResearchResult` in `agent-types.ts`). -/
structure ResearchResult where
  facts : List Fact
  needsVerification : List String
  summary : String
  duration : Nat
deriving DecidableEq, Repr

/-! ## Deduplicator (`deduplicateFacts`, `src/agents/research-agent.ts`) -/

/-- The dedup key: `fact.claim.toLowerCase().trim()`. -/
def dedupKey (f : Fact) : String :=
  strTrim (strToLower f.claim)

/-- The loop of `deduplicateFacts`: `seen` is the set of keys already kept. -/
def dedupeAux (seen : List String) : List Fact → List Fact
  | [] => []
  | f :: rest =>
    if dedupKey f ∈ seen then dedupeAux seen rest
    else f :: dedupeAux (dedupKey f :: seen) rest

/-- `deduplicateFacts` from `research-agent.ts`: first occurrence of each
dedup key wins, order is stable. -/
def deduplicateFacts (facts : List Fact) : List Fact :=
  dedupeAux [] facts

theorem dedupeAux_idem (l : List Fact) :
    ∀ seen : List String, dedupeAux seen (dedupeAux seen l) = dedupeAux seen l := by
  induction l with
  | nil => intro seen; rfl
  | cons f rest ih =>
    intro seen
    by_cases h : dedupKey f ∈ seen
    · simp [dedupeAux, h, ih seen]
    · simp [dedupeAux, h, ih (dedupKey f :: seen)]

theorem dedupeAux_subset {f : Fact} :
    ∀ (l : List Fact) (seen : List String), f ∈ dedupeAux seen l → f ∈ l := by
  intro l
  induction l with
  | nil => intro seen h; exact absurd h (List.not_mem_nil f)
  | cons g rest ih =>
    intro seen h
    by_cases hg : dedupKey g ∈ seen
    · simp only [dedupeAux, if_pos hg] at h
      exact List.mem_cons_of_mem g (ih seen h)
    · simp only [dedupeAux, if_neg hg, List.mem_cons] at h
      rcases h with h | h
      · exact h ▸ List.mem_cons_self g rest
      · exact List.mem_cons_of_mem g (ih (dedupKey g :: seen) h)

/-- C9: the Deduplicator is idempotent: `Dedupe(Dedupe(facts)) == Dedupe(facts)`
for every input list, where duplicates are detected on the lower-cased,
trimmed claim text and the first occurrence wins. -/
theorem c9_dedup_idempotent (facts : List Fact) :
    deduplicateFacts (deduplicateFacts facts) = deduplicateFacts facts :=
  dedupeAux_idem facts []

/-! ## Fact Validator (`runFactValidator`, second half of
`src/agents/compliance-checker.ts`, imported as `@/agents/fact-validator`) -/

/-- The parsed JSON of the validator LLM call
(`Omit<ValidationResult, 'approvalRate'>`): the approve/reject partition is
an opaque oracle supplied by the external classifier. -/
structure ValidationOutcome where
  approved : List Fact
  rejected : List RejectedFact
  summary : String
deriving DecidableEq, Repr

/-- `ValidationResult` of `fact-validator`: the outcome plus `approvalRate`. -/
structure ValidationResult extends ValidationOutcome where
  approvalRate : ℚ
deriving DecidableEq, Repr

/-- `InsufficientFactsError`: message plus the full rejected list. -/
structure InsufficientFactsError where
  message : String
  rejectedFacts : List RejectedFact
deriving DecidableEq, Repr

/-- `runFactValidator` with the LLM partition `outcome` given as input and
`facts` the facts handed to it.  The code computes
`approvalRate = (approved.length / facts.length) * 100` when `facts` is
nonempty (0 otherwise), and throws `InsufficientFactsError` when fewer than
5 facts were approved. -/
def runFactValidator (outcome : ValidationOutcome) (facts : List Fact) :
    Except InsufficientFactsError ValidationResult :=
  let approvalRate : ℚ :=
    if facts.length > 0 then mkRat (outcome.approved.length * 100) facts.length
    else 0
  if outcome.approved.length < 5 then
    Except.error
      ⟨"Only " ++ toString outcome.approved.length ++
        " facts approved. Need minimum 5 for content creation.", outcome.rejected⟩
  else
    Except.ok ⟨outcome, approvalRate⟩

/-! ## Retry policy (`withRetry`, orchestrator in `src/unnamed/part_003`) -/

/-- A raised JS error, as inspected by `withRetry`. -/
structure JsError where
  name : String := "Error"
  message : String
  stack : String := ""
  status : Option Nat := none
deriving DecidableEq, Repr

/-- The rate-limit classifier of `withRetry`:
`error.message?.includes('rate_limit') || error.message?.includes('429') || error.status === 429`. -/
def isRateLimit (e : JsError) : Bool :=
  strIncludes e.message "rate_limit" || strIncludes e.message "429" ||
    e.status == some 429

/-- The error thrown after the loop: `new Error('Max retries exceeded')`. -/
def maxRetriesExceededErr : JsError :=
  { message := "Max retries exceeded" }

/-- The loop body of `withRetry`, recursing on the remaining iterations
(`remaining = maxRetries - i`, so the code's `i < maxRetries - 1` guard is
`0 < remaining - 1`).  The second component counts the attempts made;
attempt `i` calls the wrapped function as `f i`. -/
def withRetryAux (f : Nat → Except JsError α) (i : Nat) :
    Nat → Except JsError α × Nat
  | 0 => (Except.error maxRetriesExceededErr, i)
  | r + 1 =>
    match f i with
    | Except.ok a => (Except.ok a, i + 1)
    | Except.error e =>
      if isRateLimit e && 0 < r then withRetryAux f (i + 1) r
      else (Except.error e, i + 1)

/-- `withRetry(fn, maxRetries = 2)`: the result together with the number of
attempts performed. -/
def withRetry (f : Nat → Except JsError α) (maxRetries : Nat := 2) :
    Except JsError α × Nat :=
  withRetryAux f 0 maxRetries

/-! ## Brand knowledge / tone of voice (`src/unnamed/part_003`, first file:
`validateToneOfVoice` of the brand-knowledge library) -/

/-- Result of `validateToneOfVoice`. -/
structure ToneCheck where
  valid : Bool
  issues : List String
  score : ℚ
deriving DecidableEq, Repr

/-- The fixed hedging patterns checked by `validateToneOfVoice`
(`/ongeveer/gi` etc.: bare case-insensitive substring tests). -/
def vaguePatterns : List (String × String) :=
  [("ongeveer", "Bevat \"ongeveer\" - wees specifieker"),
   ("mogelijk", "Bevat \"mogelijk\" - te vaag"),
   ("zou kunnen", "Bevat \"zou kunnen\" - gebruik feiten"),
   ("waarschijnlijk", "Bevat \"waarschijnlijk\" - te speculatief")]

/-- `validateToneOfVoice(text)`: one issue per matched avoid word
(`\b word \b`, case-insensitive) and per matched hedging pattern;
`score = max(0, 100 - 15 * issues.length)`; valid iff `score >= 70`.
The tenant-configured avoid list (`brandData.toneOfVoice.avoidWords`) is a
parameter. -/
def validateToneOfVoice (avoidWords : List String) (text : String) : ToneCheck :=
  let issues :=
    avoidWords.filterMap
      (fun w => if wordMatchCI w text then some ("Vermijd woord: \"" ++ w ++ "\"") else none)
    ++ vaguePatterns.filterMap
      (fun pm => if strIncludesCI text pm.1 then some pm.2 else none)
  let scoreZ : ℤ := max 0 (100 - 15 * (issues.length : ℤ))
  let score : ℚ := mkRat scoreZ 1
  ⟨decide ((70 : ℚ) ≤ score), issues, score⟩

/-! ## Compliance checker (`src/agents/compliance-checker.ts`) -/

/-- Issue severities. -/
inductive Severity
  | critical
  | warning
  | info
deriving DecidableEq, BEq, Repr

/-- `ComplianceIssue` from `agent-types.ts`. -/
structure ComplianceIssue where
  severity : Severity
  check : String
  description : String
  location : Option String := none
  suggestion : Option String := none
deriving DecidableEq, Repr

/-- One named check inside a `ComplianceResult`. -/
structure ComplianceCheck where
  passed : Bool
  score : ℚ
  issues : List String
deriving DecidableEq, Repr

/-- The five named checks of a `ComplianceResult`. -/
structure ComplianceChecks where
  factVerification : ComplianceCheck
  toneOfVoice : ComplianceCheck
  technical : ComplianceCheck
  completeness : ComplianceCheck
  seo : ComplianceCheck
deriving DecidableEq, Repr

/-- `ComplianceResult` from `agent-types.ts`. -/
structure ComplianceResult where
  approved : Bool
  overallScore : ℚ
  checks : ComplianceChecks
  issues : List ComplianceIssue
  recommendations : List String
deriving DecidableEq, Repr

/-- `ComplianceError`: message plus the critical issues. -/
structure ComplianceError where
  message : String
  criticalIssues : List ComplianceIssue
deriving DecidableEq, Repr

/-- `Article` from `agent-types.ts`. -/
structure Article where
  title : String
  metaDescription : String
  content : String
  keywords : List String
  wordCount : Nat
  factsUsed : List String
  internalLinkSuggestions : List String
deriving DecidableEq, Repr

/-- Output of `runPreChecks`. -/
structure PreChecks where
  critical : Bool
  issues : List ComplianceIssue
  checks : ComplianceChecks
deriving DecidableEq, Repr

/-- The critical issue pushed when `[PLACEHOLDER` occurs in the content. -/
def placeholderIssue : ComplianceIssue :=
  { severity := Severity.critical
    check := "completeness"
    description := "Article contains [PLACEHOLDER] tags"
    location := some "content"
    suggestion := some "Research missing information or remove placeholder" }

/-- `runPreChecks(article, usedFacts)`: deterministic pre-checks.  The
placeholder check is the only one that sets `critical`; word count, title
length, meta-description length and tone matches produce warnings. -/
def runPreChecks (avoidWords : List String) (article : Article)
    (_usedFacts : List Fact) : PreChecks :=
  let toneCheck := validateToneOfVoice avoidWords article.content
  let critical := strIncludes article.content "[PLACEHOLDER"
  let issues :=
    (if critical then [placeholderIssue] else [])
    ++ (if article.wordCount < 650 then
          [{ severity := Severity.warning, check := "completeness",
             description := "Article too short: " ++ toString article.wordCount ++
               " words (min 650)",
             location := some "content" }]
        else [])
    ++ (if article.title.length > 60 then
          [{ severity := Severity.warning, check := "seo",
             description := "Title too long: " ++ toString article.title.length ++
               " chars (max 60)",
             location := some "meta.title" }]
        else [])
    ++ (if article.metaDescription.length > 155 then
          [{ severity := Severity.warning, check := "seo",
             description := "Meta description too long: " ++
               toString article.metaDescription.length ++ " chars (max 155)",
             location := some "meta.description" }]
        else [])
    ++ (if toneCheck.valid then []
        else toneCheck.issues.map
          (fun m => { severity := Severity.warning, check := "toneOfVoice",
                      description := m, location := some "content" }))
  { critical := critical
    issues := issues
    checks :=
      { factVerification := ⟨true, 100, []⟩
        toneOfVoice := ⟨toneCheck.valid, toneCheck.score, toneCheck.issues⟩
        technical := ⟨true, 100, []⟩
        completeness := ⟨!critical, if critical then 0 else 100, []⟩
        seo := ⟨true, 90, []⟩ } }

/-- `runComplianceChecker(article, usedFacts)` with the parsed JSON of the
model-assisted deep check supplied as the oracle `deep`.  Returns the
result (or the thrown `ComplianceError`) together with a flag recording
whether the deep phase was invoked.  Mirrors the code: a critically failed
pre-check short-circuits with `approved = false` and score 0; otherwise the
deep verdict is consulted and a disapproving verdict raises
`ComplianceError` carrying only the critical issues. -/
def runComplianceChecker (avoidWords : List String) (deep : ComplianceResult)
    (article : Article) (usedFacts : List Fact) :
    Except ComplianceError ComplianceResult × Bool :=
  let preChecks := runPreChecks avoidWords article usedFacts
  if preChecks.critical then
    (Except.ok { approved := false, overallScore := 0, checks := preChecks.checks,
                 issues := preChecks.issues, recommendations := [] }, false)
  else if !deep.approved then
    (Except.error ⟨"Article failed compliance check",
       deep.issues.filter (fun i => i.severity == Severity.critical)⟩, true)
  else
    (Except.ok deep, true)

/-! ## Pipeline orchestrator (`createContent`, `src/unnamed/part_003`) -/

/-- Step status of the workflow ledger. -/
inductive StepStatus
  | pending
  | running
  | completed
  | failed
deriving DecidableEq, Repr

/-- The success payloads recorded by the orchestrator's `completeStep`
calls, one shape per call site. -/
inductive StepData
  | research (factsFound : Nat) (duration : Nat)
  | validation (approved : Nat) (rejected : Nat) (approvalRate : ℚ)
  | writing (wordCount : Nat) (factsUsed : Nat)
  | compliance (approved : Bool) (score : ℚ)
  | storage (articleId : String)
deriving DecidableEq, Repr

/-- `WorkflowStep` of the orchestrator.  Timestamps are modelled by a
logical clock that advances at every `Date.now()` call. -/
structure WorkflowStep where
  name : String
  status : StepStatus
  startTime : Option Nat := none
  endTime : Option Nat := none
  duration : Option Nat := none
  data : Option StepData := none
  error : Option String := none
deriving DecidableEq, Repr

/-- State of the `WorkflowLogger`: the step ledger and the logical clock. -/
structure LogState where
  steps : List WorkflowStep
  now : Nat
deriving DecidableEq, Repr

/-- Update the first step with the given name
(`this.steps.find(s => s.name === name)` then mutate). -/
def updateFirstStep (name : String) (f : WorkflowStep → WorkflowStep) :
    List WorkflowStep → List WorkflowStep
  | [] => []
  | s :: rest =>
    if s.name = name then f s :: rest else s :: updateFirstStep name f rest

/-- `WorkflowLogger.startStep`. -/
def startStep (name : String) (st : LogState) : LogState :=
  { steps := st.steps ++
      [{ name := name
         status := StepStatus.running
         startTime := some st.now }]
    now := st.now + 1 }

/-- `WorkflowLogger.completeStep`. -/
def completeStep (name : String) (data : StepData) (st : LogState) : LogState :=
  { steps := updateFirstStep name
      (fun s =>
        { s with
          status := StepStatus.completed
          endTime := some st.now
          duration := some (st.now - s.startTime.getD 0)
          data := some data }) st.steps
    now := st.now + 1 }

/-- `WorkflowLogger.failStep` (defined in the source; the `createContent`
of `src/unnamed/part_003` never calls it). -/
def failStep (name : String) (error : String) (st : LogState) : LogState :=
  { steps := updateFirstStep name
      (fun s =>
        { s with
          status := StepStatus.failed
          endTime := some st.now
          duration := some (st.now - s.startTime.getD 0)
          error := some error }) st.steps
    now := st.now + 1 }

/-- `WorkflowLogger.getWorkflow`. -/
structure Workflow where
  steps : List WorkflowStep
  totalDuration : Nat
deriving DecidableEq, Repr

def getWorkflow (st : LogState) : Workflow :=
  { steps := st.steps, totalDuration := st.now }

/-- The `errorDetails` payloads of the three failure envelopes of
`createContent`. -/
inductive ErrorDetailsV
  | insufficientFacts (approved : Nat) (message : String)
      (rejected : List (String × String))
  | compliance (message : String) (issues : List ComplianceIssue)
  | generic (name : String) (stack : String)
deriving DecidableEq, Repr

/-- `ContentRequest` of the orchestrator. -/
structure ContentRequest where
  topic : String
  targetAudience : String
  keywords : List String := []
  desiredWordCount : Option Nat := none
  userId : Option String := none
  sources : List String := []
  briefing : Option String := none
  clientId : Option String := none
deriving DecidableEq, Repr

/-- The saved database row id returned by `saveArticle`. -/
structure SavedArticle where
  id : String
deriving DecidableEq, Repr

/-- `ContentResult`, the envelope returned by `createContent`.
`qualityWarnings` is present only on the success envelope. -/
structure ContentResult where
  success : Bool
  articleId : Option String := none
  article : Option Article := none
  compliance : Option ComplianceResult := none
  qualityWarnings : Option (List String) := none
  error : Option String := none
  errorType : Option String := none
  errorDetails : Option ErrorDetailsV := none
  workflow : Workflow
deriving DecidableEq, Repr

/-- The exceptions that can reach the orchestrator's catch block. -/
inductive PipelineError
  | insufficientFacts (e : InsufficientFactsError)
  | compliance (e : ComplianceError)
  | generic (e : JsError)
deriving DecidableEq, Repr

/-- The environment of one run: the outcome of each external call.
`research` is the outcome of `withRetry(() => runResearchAgent(...))`;
`validatorOutcome` and `complianceDeep` are the parsed LLM JSON payloads
(or the error their calls raised); `writer` and `storage` are the writing
and persistence outcomes.  `avoidWords` is the tenant's avoid-word list. -/
structure Env where
  research : Except JsError ResearchResult
  validatorOutcome : Except JsError ValidationOutcome
  writer : Except JsError Article
  complianceDeep : Except JsError ComplianceResult
  storage : Except JsError SavedArticle
  avoidWords : List String
deriving Repr

/-- The catch block of `createContent`: classify the error and build the
failure envelope, returning the ledger as-is. -/
def catchAll (err : PipelineError) (st : LogState) : ContentResult :=
  match err with
  | PipelineError.insufficientFacts e =>
    { success := false
      error := some "Insufficient verified facts"
      errorType := some "insufficient_facts"
      errorDetails := some (ErrorDetailsV.insufficientFacts e.rejectedFacts.length
        "Not enough high-quality facts were found to create reliable content"
        (e.rejectedFacts.map (fun f => (f.claim, f.rejectionReason))))
      workflow := getWorkflow st }
  | PipelineError.compliance e =>
    { success := false
      error := some "Compliance check failed"
      errorType := some "compliance_failed"
      errorDetails := some (ErrorDetailsV.compliance
        "Article contains critical issues that block publication" e.criticalIssues)
      workflow := getWorkflow st }
  | PipelineError.generic e =>
    { success := false
      error := some e.message
      errorType := some "unknown"
      errorDetails := some (ErrorDetailsV.generic e.name e.stack)
      workflow := getWorkflow st }

/-- The quality warnings pushed when the compliance result is not approved. -/
def complianceWarnings (compliance : ComplianceResult) : List String :=
  let criticalIssues := compliance.issues.filter (fun i => i.severity == Severity.critical)
  ["⚠️ Compliance check failed (score: " ++ toString compliance.overallScore ++ "/100)"]
  ++ (if criticalIssues.length > 0 then
        ["Critical issues: " ++
          String.intercalate ", " (criticalIssues.map (fun i => i.description))]
      else [])

/-- `createContent`: the five-stage pipeline of `src/unnamed/part_003`,
with each external outcome taken from `env`. -/
def createContent (env : Env) (_request : ContentRequest) : ContentResult :=
  let st1 := startStep "Research" ⟨[], 0⟩
  match env.research with
  | Except.error e => catchAll (PipelineError.generic e) st1
  | Except.ok research =>
  let st2 := completeStep "Research" (StepData.research research.facts.length research.duration) st1
  let st3 := startStep "Validation" st2
  match env.validatorOutcome with
  | Except.error e => catchAll (PipelineError.generic e) st3
  | Except.ok outcome =>
  match runFactValidator outcome research.facts with
  | Except.error ie => catchAll (PipelineError.insufficientFacts ie) st3
  | Except.ok validation =>
  let st4 := completeStep "Validation"
    (StepData.validation validation.approved.length validation.rejected.length
      validation.approvalRate) st3
  let w1 : List String :=
    if validation.approved.length < 5 then
      ["⚠️ Only " ++ toString validation.approved.length ++
        " verified facts found. Article may lack depth."]
    else []
  let w2 : List String :=
    if validation.approvalRate < mkRat 6 10 then
      w1 ++ ["⚠️ Low fact approval rate (" ++
        toString (jsRound (qscale100 validation.approvalRate)) ++
        "%). Many sources were rejected."]
    else w1
  let st5 := startStep "Writing" st4
  match env.writer with
  | Except.error e => catchAll (PipelineError.generic e) st5
  | Except.ok article =>
  let st6 := completeStep "Writing" (StepData.writing article.wordCount article.factsUsed.length) st5
  let st7 := startStep "Compliance" st6
  match env.complianceDeep with
  | Except.error e => catchAll (PipelineError.generic e) st7
  | Except.ok deep =>
  match (runComplianceChecker env.avoidWords deep article validation.approved).1 with
  | Except.error ce => catchAll (PipelineError.compliance ce) st7
  | Except.ok compliance =>
  let st8 := completeStep "Compliance"
    (StepData.compliance compliance.approved compliance.overallScore) st7
  let w3 : List String :=
    if !compliance.approved then w2 ++ complianceWarnings compliance else w2
  let st9 := startStep "Storage" st8
  match env.storage with
  | Except.error e => catchAll (PipelineError.generic e) st9
  | Except.ok saved =>
  let st10 := completeStep "Storage" (StepData.storage saved.id) st9
  { success := true
    articleId := some saved.id
    article := some article
    compliance := some compliance
    qualityWarnings := some w3
    workflow := getWorkflow st10 }

/-! ## Research-stage fact flow (`src/agents/research-agent.ts`)

The file contains two variants of `runResearchAgent`.  Both are modelled on
their no-custom-sources path (with `sources = []` the first variant skips
`extractFromSources` and the second skips the confidence boost), taking the
parsed facts of the LLM response as the oracle input. -/

/-- The confidence filter `fact.confidence >= 0.7`. -/
def confOK (f : Fact) : Bool :=
  decide (mkRat 7 10 ≤ f.confidence)

/-- First variant (lines 153-157): deduplicate, then filter low confidence. -/
def researchFactsV1 (allFacts : List Fact) : List Fact :=
  (deduplicateFacts allFacts).filter confOK

/-- Second variant (lines 591-619): filter low confidence, then deduplicate. -/
def researchFactsV2 (parsedFacts : List Fact) : List Fact :=
  deduplicateFacts (parsedFacts.filter confOK)

/-! ## Content-create API route (`src/app/api/content/create/route.ts`) -/

/-- Responses of the create route: either the orchestrator envelope passed
through unchanged by `NextResponse.json(result)`, or an early error reply. -/
inductive CreateResponse
  | envelope (result : ContentResult)
  | failure (status : Nat) (error : String)
deriving Repr

/-- The request body of the create route (already JSON-parsed). -/
structure CreateBody where
  topic : Option String := none
  targetAudience : Option String := none
  keywords : Option (List String) := none
  desiredWordCount : Option Nat := none
  sources : Option (List String) := none
  briefing : Option String := none
deriving Repr

/-- `POST /api/content/create`: session check, field validation, then the
orchestrator result is returned verbatim as the JSON payload. -/
def postCreate (session : Option String) (body : CreateBody) (env : Env) :
    CreateResponse :=
  match session with
  | none => CreateResponse.failure 401 "Unauthorized"
  | some clientId =>
    match body.topic, body.targetAudience with
    | some topic, some targetAudience =>
      CreateResponse.envelope (createContent env
        { topic := topic
          targetAudience := targetAudience
          keywords := body.keywords.getD []
          desiredWordCount := some (body.desiredWordCount.getD 700)
          sources := body.sources.getD []
          briefing := body.briefing
          userId := some "web-user"
          clientId := some clientId })
    | _, _ =>
      CreateResponse.failure 400 "Missing required fields: topic and targetAudience"

/-- Accessor: the stack string carried in a generic-failure envelope. -/
def resultStack (r : ContentResult) : Option String :=
  match r.errorDetails with
  | some (ErrorDetailsV.generic _ st) => some st
  | _ => none

/-! ## Rewrite API route (`src/app/api/articles/[id]/rewrite/route.ts`) -/

/-- A row of the `articles` table, restricted to the columns the rewrite
route reads or writes. -/
structure ArticleRow where
  id : String
  topic : String
  target_audience : Option String := none
  keywords : List String := []
  sources : List String := []
  version : Option Nat := none
  parent_article_id : Option String := none
  version_notes : Option String := none
  content : String
  client_id : Option String := none
deriving DecidableEq, Repr

/-- JS `v || d` on an optional number: `null`/`undefined`/`0` fall through. -/
def jsOrNat (v : Option Nat) (d : Nat) : Nat :=
  match v with
  | some n => if n = 0 then d else n
  | none => d

/-- JS `v || d` on an optional string: `null`/`undefined`/`''` fall through. -/
def jsOrStr (v : Option String) (d : String) : String :=
  match v with
  | some s => if s = "" then d else s
  | none => d

/-- Responses of the rewrite route. -/
inductive RewriteResponse
  | ok (articleId : String) (version : Nat) (parentArticleId : String)
  | err (status : Nat) (msg : String)
deriving DecidableEq, Repr

/-- `POST /api/articles/[id]/rewrite`.  `store` is the articles table,
`orch` the outcome of the inner `createContent` run (on success, the row it
inserted, carrying a fresh id; version columns still unset).  Returns the
HTTP response and the table after the run: the orchestrator's insert
followed by the `update(...).eq('id', result.articleId)` stamping the
version info onto the new row. -/
def rewritePost (store : List ArticleRow) (session : Option String)
    (id : String) (versionNotes : Option String)
    (orch : Except String ArticleRow) : RewriteResponse × List ArticleRow :=
  match session with
  | none => (RewriteResponse.err 401 "Unauthorized", store)
  | some clientId =>
    match versionNotes with
    | none => (RewriteResponse.err 400 "versionNotes is required", store)
    | some notes =>
      if notes = "" then (RewriteResponse.err 400 "versionNotes is required", store)
      else
        match store.filter (fun r => r.id = id ∧ r.client_id = some clientId) with
        | [] => (RewriteResponse.err 404 "Article not found", store)
        | currentArticle :: _ =>
          let parentArticleId := jsOrStr currentArticle.parent_article_id currentArticle.id
          let newVersion := jsOrNat currentArticle.version 1 + 1
          match orch with
          | Except.error msg => (RewriteResponse.err 500 msg, store)
          | Except.ok newRow =>
            let afterInsert := store ++ [newRow]
            let afterUpdate := afterInsert.map
              (fun r =>
                if r.id = newRow.id then
                  { r with
                    version := some newVersion
                    parent_article_id := some parentArticleId
                    version_notes := some notes }
                else r)
            (RewriteResponse.ok newRow.id newVersion parentArticleId, afterUpdate)

/-! ## Concrete sample data used by the closed theorems and witnesses -/

def mkFact (n : Nat) : Fact :=
  { claim := "claim " ++ toString n
    source := "renault-trucks.com"
    confidence := mkRat 9 10
    category := FactCategory.technical }

def mkRejected (n : Nat) : RejectedFact :=
  { mkFact n with rejectionReason := "weak source" }

/-- Ten researched facts. -/
def factsC1 : List Fact := (List.range 10).map mkFact

/-- A validator partition approving exactly 5 of the 10 facts. -/
def outcomeC1 : ValidationOutcome :=
  { approved := (List.range 5).map mkFact
    rejected := (List.range 5).map (fun n => mkRejected (n + 5))
    summary := "s" }

/-- A clean article: no placeholder, acceptable length, clean tone. -/
def artClean : Article :=
  { title := "E-Tech nieuws"
    metaDescription := "Kort overzicht"
    content := "Goede inhoud over trucks."
    keywords := ["trucks"]
    wordCount := 700
    factsUsed := ["claim 0"]
    internalLinkSuggestions := [] }

/-- The same article with an unresolved placeholder marker. -/
def artPlaceholder : Article :=
  { artClean with content := "Tekst met [PLACEHOLDER] erin." }

def checksPass : ComplianceChecks :=
  ⟨⟨true, 95, []⟩, ⟨true, 88, []⟩, ⟨true, 90, []⟩, ⟨true, 85, []⟩, ⟨true, 82, []⟩⟩

/-- An approving deep-check verdict. -/
def deepApproved : ComplianceResult :=
  { approved := true
    overallScore := 87
    checks := checksPass
    issues := []
    recommendations := [] }

/-- A disapproving deep-check verdict with one critical and one warning issue. -/
def deepRejected : ComplianceResult :=
  { approved := false
    overallScore := 40
    checks := checksPass
    issues := [⟨Severity.critical, "factVerification", "hallucinated spec", none, none⟩,
               ⟨Severity.warning, "seo", "title vague", none, none⟩]
    recommendations := [] }

/-- A validator partition approving only 4 facts. -/
def outcomeC3 : ValidationOutcome :=
  { approved := (List.range 4).map mkFact
    rejected := (List.range 6).map (fun n => mkRejected (n + 4))
    summary := "s" }

/-- The research result over the ten facts. -/
def researchC1 : ResearchResult :=
  { facts := factsC1, needsVerification := [], summary := "s", duration := 10 }

/-- A fully successful environment: 10 facts researched, 5 approved. -/
def envC1 : Env :=
  { research := Except.ok researchC1
    validatorOutcome := Except.ok outcomeC1
    writer := Except.ok artClean
    complianceDeep := Except.ok deepApproved
    storage := Except.ok ⟨"article-1"⟩
    avoidWords := ["revolutionair", "beste", "uniek"] }

def reqC1 : ContentRequest := { topic := "E-Tech", targetAudience := "fleet managers" }

/-- A generic (non-rate-limit, non-pipeline) error with stack detail. -/
def typeErr : JsError :=
  { name := "TypeError", message := "boom", stack := "at internal.js:42" }

/-- Environment whose research stage raises a generic error. -/
def envResearchFails : Env := { envC1 with research := Except.error typeErr }

/-- Environment whose writer produces an article with a placeholder. -/
def envPlaceholder : Env := { envC1 with writer := Except.ok artPlaceholder }

/-- A rate-limit-classified error. -/
def rlErr : JsError := { message := "rate_limit exceeded" }

/-- A plain error that is not rate-limit classified. -/
def plainErr : JsError := { message := "boom" }

/-- An existing version-1 article row. -/
def rowV1 : ArticleRow :=
  { id := "art-1", topic := "E-Tech", content := "c1"
    client_id := some "client-1", version := some 1 }

/-- The row the rewrite's inner orchestrator run inserts. -/
def newRowC8 : ArticleRow :=
  { id := "art-2", topic := "E-Tech", content := "c2", client_id := some "client-1" }

/-- A low-confidence fact and a high-confidence duplicate of the same claim. -/
def fLow : Fact := { claim := "A", source := "s", confidence := mkRat 1 2, category := FactCategory.general }

def fHigh : Fact := { claim := "a", source := "s", confidence := mkRat 9 10, category := FactCategory.general }

/-! ## C4 — retry policy bound -/

theorem withRetryAux_always_rateLimit {α : Type} (e : JsError)
    (he : isRateLimit e = true) :
    ∀ r : Nat, 1 ≤ r → ∀ i : Nat,
      withRetryAux (fun _ => (Except.error e : Except JsError α)) i r =
        (Except.error e, i + r) := by
  intro r
  induction r with
  | zero => intro h; omega
  | succ k ih =>
    intro _ i
    rcases Nat.eq_zero_or_pos k with hk | hk
    · subst hk
      simp [withRetryAux, he]
    · have : withRetryAux (fun _ => (Except.error e : Except JsError α)) (i + 1) k =
          (Except.error e, (i + 1) + k) := ih hk (i + 1)
      simp only [withRetryAux, he, hk, Bool.true_and, this, decide_True, if_true,
        if_pos]
      have harith : i + 1 + k = i + (k + 1) := by omega
      rw [harith]

/-- C4 counterexample: a call that always raises a rate-limit-classified
error is attempted exactly `maxRetries` times, but then the *rate-limit
error itself* is rethrown, not the generic "max retries exceeded" error the
claim requires (the `throw new Error('Max retries exceeded')` after the
loop is unreachable for positive `maxRetries`). -/
theorem c4_retry_final_error_counterexample :
    withRetry (fun _ => (Except.error rlErr : Except JsError Nat)) 2 =
      (Except.error rlErr, 2) ∧
    rlErr.message ≠ "Max retries exceeded" ∧
    isRateLimit rlErr = true := by
  refine ⟨rfl, by decide, by decide⟩

/-- C4 (amended): a call that always raises a rate-limit-classified error
is attempted exactly `maxAttempts` times and the final rate-limit error is
rethrown (the generic "max retries exceeded" error is never raised on this
path); a call raising a non-rate-limit error is attempted exactly once and
the error is rethrown immediately. -/
theorem c4_retry_bound_amended {α : Type} :
    (∀ (m : Nat) (e : JsError), 1 ≤ m → isRateLimit e = true →
      withRetry (fun _ => (Except.error e : Except JsError α)) m =
        (Except.error e, m)) ∧
    (∀ (m : Nat) (f : Nat → Except JsError α) (e : JsError), 1 ≤ m →
      isRateLimit e = false → f 0 = Except.error e →
      withRetry f m = (Except.error e, 1)) := by
  constructor
  · intro m e hm he
    have := withRetryAux_always_rateLimit (α := α) e he m hm 0
    simpa [withRetry] using this
  · intro m f e hm he hf
    obtain ⟨r, rfl⟩ : ∃ r, m = r + 1 := ⟨m - 1, by omega⟩
    simp [withRetry, withRetryAux, hf, he]

/-- C4 witness: both amended conjuncts at concrete inputs. -/
theorem c4_retry_bound_amended_witness :
    withRetry (fun _ => (Except.error rlErr : Except JsError Nat)) 2 =
      (Except.error rlErr, 2) ∧
    withRetry (fun _ => (Except.error plainErr : Except JsError Nat)) 2 =
      (Except.error plainErr, 1) :=
  ⟨c4_retry_bound_amended.1 2 rlErr (by decide) (by decide),
   c4_retry_bound_amended.2 2 (fun _ => Except.error plainErr) plainErr
     (by decide) (by decide) rfl⟩

/-! ## C7 — compliance short-circuit on unresolved placeholders -/

/-- C7: an article whose content contains an unresolved placeholder marker
always yields `approved = false` with a critical-severity completeness
issue, and the model-assisted deep phase is never invoked (the invoked flag
is false and the outcome does not depend on the deep verdict at all). -/
theorem c7_placeholder_short_circuit
    (aw : List String) (deep : ComplianceResult) (article : Article)
    (facts : List Fact)
    (h : strIncludes article.content "[PLACEHOLDER" = true) :
    (runComplianceChecker aw deep article facts).1 =
      Except.ok
        { approved := false
          overallScore := 0
          checks := (runPreChecks aw article facts).checks
          issues := (runPreChecks aw article facts).issues
          recommendations := [] } ∧
    ((runPreChecks aw article facts).issues.any
      (fun i => i.severity == Severity.critical && i.check == "completeness")) = true ∧
    (runComplianceChecker aw deep article facts).2 = false ∧
    (∀ deep' : ComplianceResult, runComplianceChecker aw deep' article facts =
      runComplianceChecker aw deep article facts) := by
  have hcrit : (runPreChecks aw article facts).critical = true := by
    simp [runPreChecks, h]
  refine ⟨?_, ?_, ?_, ?_⟩
  · simp [runComplianceChecker, hcrit]
  · simp [runPreChecks, h, placeholderIssue]
    exact Or.inl rfl
  · simp [runComplianceChecker, hcrit]
  · intro deep'
    simp [runComplianceChecker, hcrit]

/-- C7 witness: the short-circuit at a concrete placeholder article. -/
theorem c7_placeholder_short_circuit_witness :
    strIncludes artPlaceholder.content "[PLACEHOLDER" = true ∧
    (runComplianceChecker ["beste"] deepApproved artPlaceholder []).2 = false :=
  ⟨by decide,
   (c7_placeholder_short_circuit ["beste"] deepApproved artPlaceholder []
     (by decide)).2.2.1⟩

/-! ## C10 — research-stage confidence floor -/

/-- C10 counterexample: the claim says sub-0.7 facts are filtered out
*before* deduplication.  In the first variant of `runResearchAgent` the
filter runs *after* deduplication, so a low-confidence first occurrence
(`fLow`, confidence 0.5) shadows and eliminates a high-confidence duplicate
(`fHigh`, confidence 0.9): the stage returns `[]` where
filter-before-dedup would return `[fHigh]`. -/
theorem c10_filter_order_counterexample :
    researchFactsV1 [fLow, fHigh] = [] ∧
    deduplicateFacts (List.filter confOK [fLow, fHigh]) = [fHigh] ∧
    confOK fHigh = true ∧
    fHigh ∉ researchFactsV1 [fLow, fHigh] := by
  refine ⟨by decide, by decide, by decide, by decide⟩

/-- C10 (amended): in both variants of the research agent every fact in
the returned `ResearchResult` has confidence at least 0.7, so downstream
stages never see a sub-0.7 fact; but only the second variant filters
before deduplication — the first deduplicates first and then filters. -/
theorem c10_confidence_floor_amended :
    (∀ (facts : List Fact) (f : Fact), f ∈ researchFactsV1 facts →
      mkRat 7 10 ≤ f.confidence) ∧
    (∀ (facts : List Fact) (f : Fact), f ∈ researchFactsV2 facts →
      mkRat 7 10 ≤ f.confidence) ∧
    (∀ facts : List Fact, researchFactsV2 facts =
      deduplicateFacts (facts.filter confOK)) := by
  refine ⟨?_, ?_, fun _ => rfl⟩
  · intro facts f hf
    have := (List.mem_filter.1 hf).2
    exact of_decide_eq_true this
  · intro facts f hf
    have hmem : f ∈ facts.filter confOK := dedupeAux_subset _ _ hf
    exact of_decide_eq_true (List.mem_filter.1 hmem).2

/-- C10 witness: the floor holds at a concrete input for both variants. -/
theorem c10_confidence_floor_amended_witness :
    fHigh ∈ researchFactsV1 [fHigh] ∧ fHigh ∈ researchFactsV2 [fHigh] ∧
    mkRat 7 10 ≤ fHigh.confidence :=
  ⟨by decide, by decide,
   c10_confidence_floor_amended.1 [fHigh] fHigh (by decide)⟩

/-! ## C1 — approval-rate units mismatch -/

/-- C1: evaluation at the failing input (5 approved facts out of 10).  The
validator stores `approvalRate = 50` — a *percentage* — while the claim
(and the orchestrator's own warning message, which multiplies the value by
100 again for display) takes `approvalRate` to be the fraction
`|approved| / |facts| = 0.5`.  The fraction is below 0.6, so the claim
requires a quality warning, but the stored 50 is not `< 0.6`, so the
orchestrator's check never fires and the run carries no warning. -/
theorem c1_approval_rate_mismatch_eval :
    ((runFactValidator outcomeC1 factsC1).toOption.map
      (fun r => r.approvalRate)) = some 50 ∧
    mkRat 5 10 < mkRat 6 10 ∧
    ¬ ((50 : ℚ) < mkRat 6 10) ∧
    (createContent envC1 reqC1).qualityWarnings = some [] ∧
    (createContent envC1 reqC1).success = true := by
  refine ⟨rfl, by decide, by decide, rfl, rfl⟩

/-! ## C5 — a failing stage leaves its ledger step `running` -/

/-- C5: evaluation at a failing input.  When the research stage raises a
generic error, the orchestrator's catch block returns the envelope without
ever calling `failStep`, so the returned ledger still holds the Research
step with status `running`, no end time, no payload and no error —
contradicting the claim that every step ends completed or failed. -/
theorem c5_running_step_left_eval :
    (createContent envResearchFails reqC1).workflow.steps =
      [{ name := "Research", status := StepStatus.running, startTime := some 0,
         endTime := none, duration := none, data := none, error := none }] ∧
    ((createContent envResearchFails reqC1).workflow.steps.any
      (fun s => s.status == StepStatus.running)) = true := by
  refine ⟨rfl, rfl⟩

/-! ## C2 — compliance gate policy -/

/-- C2 counterexample: an article with an unresolved placeholder yields a
compliance result with `approved = false`, yet no `ComplianceError` is
raised (the pre-check path *returns* the disapproving result), and the
orchestrator does not stop: the run completes successfully and persists
the article.  This contradicts the claim for this aggregated
`approved = false` outcome. -/
theorem c2_precheck_no_error_counterexample :
    ((runComplianceChecker ["beste"] deepApproved artPlaceholder []).1.toOption.map
      (fun r => r.approved)) = some false ∧
    (runComplianceChecker ["beste"] deepApproved artPlaceholder []).2 = false ∧
    (createContent envPlaceholder reqC1).success = true ∧
    (createContent envPlaceholder reqC1).errorType = none ∧
    (createContent envPlaceholder reqC1).articleId = some "article-1" := by
  refine ⟨rfl, rfl, rfl, rfl, rfl⟩

/-- C2 (amended): `ComplianceError` is raised exactly on the deep-check
path — when the pre-checks are not critical and the model-assisted verdict
has `approved = false`, the scorer throws a `ComplianceError` carrying only
the critical-severity issues, and the orchestrator stops the run with a
structured rejection (`success = false`, `errorType = 'compliance_failed'`);
when a pre-check is critical, however, the scorer returns the
`approved = false` result *without* raising, and the deep phase stays
uninvoked. -/
theorem c2_compliance_gate_amended :
    (∀ (aw : List String) (deep : ComplianceResult) (article : Article)
        (facts : List Fact),
      (runPreChecks aw article facts).critical = false → deep.approved = false →
      runComplianceChecker aw deep article facts =
        (Except.error ⟨"Article failed compliance check",
          deep.issues.filter (fun i => i.severity == Severity.critical)⟩, true)) ∧
    (∀ (research : ResearchResult) (outcome : ValidationOutcome)
        (article : Article) (deep : ComplianceResult)
        (storE : Except JsError SavedArticle) (aw : List String)
        (req : ContentRequest),
      ¬ outcome.approved.length < 5 →
      (runPreChecks aw article outcome.approved).critical = false →
      deep.approved = false →
      (createContent ⟨Except.ok research, Except.ok outcome, Except.ok article,
          Except.ok deep, storE, aw⟩ req).success = false ∧
      (createContent ⟨Except.ok research, Except.ok outcome, Except.ok article,
          Except.ok deep, storE, aw⟩ req).errorType = some "compliance_failed" ∧
      (createContent ⟨Except.ok research, Except.ok outcome, Except.ok article,
          Except.ok deep, storE, aw⟩ req).errorDetails =
        some (ErrorDetailsV.compliance
          "Article contains critical issues that block publication"
          (deep.issues.filter (fun i => i.severity == Severity.critical)))) ∧
    (∀ (aw : List String) (deep : ComplianceResult) (article : Article)
        (facts : List Fact),
      (runPreChecks aw article facts).critical = true →
      ((runComplianceChecker aw deep article facts).1.toOption.map
        (fun r => r.approved)) = some false ∧
      (runComplianceChecker aw deep article facts).2 = false) := by
  refine ⟨?_, ?_, ?_⟩
  · intro aw deep article facts hpre hdeep
    simp [runComplianceChecker, hpre, hdeep]
  · intro research outcome article deep storE aw req h5 hpre hdeep
    have hv : runFactValidator outcome research.facts =
        Except.ok ⟨outcome, if research.facts.length > 0 then
          mkRat (outcome.approved.length * 100) research.facts.length else 0⟩ := by
      simp [runFactValidator, h5]
    have hc : runComplianceChecker aw deep article outcome.approved =
        (Except.error ⟨"Article failed compliance check",
          deep.issues.filter (fun i => i.severity == Severity.critical)⟩, true) := by
      simp [runComplianceChecker, hpre, hdeep]
    refine ⟨?_, ?_, ?_⟩ <;>
      simp [createContent, hv, hc, catchAll]
  · intro aw deep article facts hpre
    constructor <;> simp [runComplianceChecker, hpre, Except.toOption]

/-- C2 witness: the amended gate at concrete inputs — a disapproving deep
verdict on a clean article raises, and the orchestrator reports the
structured rejection. -/
theorem c2_compliance_gate_amended_witness :
    runComplianceChecker ["beste"] deepRejected artClean [] =
      (Except.error ⟨"Article failed compliance check",
        deepRejected.issues.filter (fun i => i.severity == Severity.critical)⟩,
       true) ∧
    (createContent ⟨Except.ok researchC1, Except.ok outcomeC1,
        Except.ok artClean, Except.ok deepRejected, Except.ok ⟨"article-1"⟩,
        ["beste"]⟩ reqC1).errorType = some "compliance_failed" :=
  ⟨c2_compliance_gate_amended.1 ["beste"] deepRejected artClean []
      (by decide) rfl,
   (c2_compliance_gate_amended.2.1 researchC1 outcomeC1 artClean deepRejected
      (Except.ok ⟨"article-1"⟩) ["beste"] reqC1 (by decide) (by decide) rfl).2.1⟩

/-! ## C3 — the insufficient-facts hard stop -/

/-- C3: whenever fewer than 5 facts are approved, the validator raises
`InsufficientFactsError` carrying the full rejected list (with the
per-fact rejection reasons), and the orchestrator run ends as a structured
`insufficient_facts` rejection whose details map every rejected fact to its
reason — and the ledger shows the run never reached the Writing stage. -/
theorem c3_insufficient_facts_hard_stop
    (outcome : ValidationOutcome) (h : outcome.approved.length < 5) :
    (∀ facts : List Fact, runFactValidator outcome facts =
      Except.error ⟨"Only " ++ toString outcome.approved.length ++
        " facts approved. Need minimum 5 for content creation.",
        outcome.rejected⟩) ∧
    (∀ (research : ResearchResult) (writerE : Except JsError Article)
        (deepE : Except JsError ComplianceResult)
        (storE : Except JsError SavedArticle) (aw : List String)
        (req : ContentRequest),
      (createContent ⟨Except.ok research, Except.ok outcome, writerE, deepE,
          storE, aw⟩ req).success = false ∧
      (createContent ⟨Except.ok research, Except.ok outcome, writerE, deepE,
          storE, aw⟩ req).errorType = some "insufficient_facts" ∧
      (createContent ⟨Except.ok research, Except.ok outcome, writerE, deepE,
          storE, aw⟩ req).errorDetails =
        some (ErrorDetailsV.insufficientFacts outcome.rejected.length
          "Not enough high-quality facts were found to create reliable content"
          (outcome.rejected.map (fun f => (f.claim, f.rejectionReason)))) ∧
      (∀ s ∈ (createContent ⟨Except.ok research, Except.ok outcome, writerE,
          deepE, storE, aw⟩ req).workflow.steps, s.name ≠ "Writing")) := by
  constructor
  · intro facts
    simp [runFactValidator, h]
  · intro research writerE deepE storE aw req
    have hv : runFactValidator outcome research.facts =
        Except.error ⟨"Only " ++ toString outcome.approved.length ++
          " facts approved. Need minimum 5 for content creation.",
          outcome.rejected⟩ := by
      simp [runFactValidator, h]
    refine ⟨?_, ?_, ?_, ?_⟩ <;>
      simp [createContent, hv, catchAll, getWorkflow, startStep, completeStep,
        updateFirstStep]

/-- C3 witness: the hard stop at a concrete 4-approved outcome. -/
theorem c3_insufficient_facts_hard_stop_witness :
    runFactValidator outcomeC3 factsC1 =
      Except.error ⟨"Only " ++ toString outcomeC3.approved.length ++
        " facts approved. Need minimum 5 for content creation.",
        outcomeC3.rejected⟩ ∧
    (createContent ⟨Except.ok researchC1, Except.ok outcomeC3,
        Except.ok artClean, Except.ok deepApproved, Except.ok ⟨"article-1"⟩,
        []⟩ reqC1).errorType = some "insufficient_facts" :=
  ⟨(c3_insufficient_facts_hard_stop outcomeC3 (by decide)).1 factsC1,
   ((c3_insufficient_facts_hard_stop outcomeC3 (by decide)).2 researchC1
      (Except.ok artClean) (Except.ok deepApproved) (Except.ok ⟨"article-1"⟩)
      [] reqC1).2.1⟩

/-! ## C6 — generic exceptions and the tenant-facing payload -/

/-- Accessor: the stack carried inside a route response's envelope. -/
def responseStack (c : CreateResponse) : Option String :=
  match c with
  | CreateResponse.envelope r => resultStack r
  | CreateResponse.failure _ _ => none

/-- Accessor: the errorType carried inside a route response's envelope. -/
def responseErrorType (c : CreateResponse) : Option String :=
  match c with
  | CreateResponse.envelope r => r.errorType
  | CreateResponse.failure _ _ => none

/-- A well-formed request body for the create route. -/
def bodyC6 : CreateBody :=
  { topic := some "E-Tech", targetAudience := some "fleet managers" }

/-- C6 counterexample: on a generic failure the orchestrator envelope's
`errorDetails` carry the raised error's stack, and the create route
returns the envelope verbatim, so the tenant-facing payload of the generic
failure *does* contain internal stack detail. -/
theorem c6_stack_leak_counterexample :
    responseErrorType (postCreate (some "client-1") bodyC6 envResearchFails) =
      some "unknown" ∧
    responseStack (postCreate (some "client-1") bodyC6 envResearchFails) =
      some "at internal.js:42" ∧
    typeErr.stack = "at internal.js:42" := by
  refine ⟨rfl, rfl, rfl⟩

/-- C6 (amended): every exception other than `InsufficientFactsError` and
`ComplianceError` — a generic error raised at any of the five stages — is
caught and returned as an envelope with `success = false` and
`errorType = 'unknown'` rather than propagated, and the route passes the
envelope through unchanged; however, the envelope's `errorDetails` include
the error's name and stack, so the tenant-facing payload does contain
internal stack detail. -/
theorem c6_unknown_error_amended :
    (∀ (e : JsError) (vE : Except JsError ValidationOutcome)
        (wE : Except JsError Article) (cE : Except JsError ComplianceResult)
        (sE : Except JsError SavedArticle) (aw : List String)
        (req : ContentRequest),
      (createContent ⟨Except.error e, vE, wE, cE, sE, aw⟩ req).success = false ∧
      (createContent ⟨Except.error e, vE, wE, cE, sE, aw⟩ req).errorType =
        some "unknown" ∧
      (createContent ⟨Except.error e, vE, wE, cE, sE, aw⟩ req).error =
        some e.message ∧
      (createContent ⟨Except.error e, vE, wE, cE, sE, aw⟩ req).errorDetails =
        some (ErrorDetailsV.generic e.name e.stack)) ∧
    (∀ (e : JsError) (research : ResearchResult)
        (wE : Except JsError Article) (cE : Except JsError ComplianceResult)
        (sE : Except JsError SavedArticle) (aw : List String)
        (req : ContentRequest),
      (createContent ⟨Except.ok research, Except.error e, wE, cE, sE, aw⟩
        req).errorType = some "unknown" ∧
      (createContent ⟨Except.ok research, Except.error e, wE, cE, sE, aw⟩
        req).errorDetails = some (ErrorDetailsV.generic e.name e.stack)) ∧
    (∀ (e : JsError) (research : ResearchResult) (outcome : ValidationOutcome)
        (cE : Except JsError ComplianceResult) (sE : Except JsError SavedArticle)
        (aw : List String) (req : ContentRequest),
      ¬ outcome.approved.length < 5 →
      (createContent ⟨Except.ok research, Except.ok outcome, Except.error e,
        cE, sE, aw⟩ req).errorType = some "unknown" ∧
      (createContent ⟨Except.ok research, Except.ok outcome, Except.error e,
        cE, sE, aw⟩ req).errorDetails =
        some (ErrorDetailsV.generic e.name e.stack)) ∧
    (∀ (e : JsError) (research : ResearchResult) (outcome : ValidationOutcome)
        (article : Article) (sE : Except JsError SavedArticle)
        (aw : List String) (req : ContentRequest),
      ¬ outcome.approved.length < 5 →
      (createContent ⟨Except.ok research, Except.ok outcome, Except.ok article,
        Except.error e, sE, aw⟩ req).errorType = some "unknown" ∧
      (createContent ⟨Except.ok research, Except.ok outcome, Except.ok article,
        Except.error e, sE, aw⟩ req).errorDetails =
        some (ErrorDetailsV.generic e.name e.stack)) ∧
    (∀ (e : JsError) (research : ResearchResult) (outcome : ValidationOutcome)
        (article : Article) (deep : ComplianceResult) (aw : List String)
        (req : ContentRequest) (cres : ComplianceResult),
      ¬ outcome.approved.length < 5 →
      (runComplianceChecker aw deep article outcome.approved).1 =
        Except.ok cres →
      (createContent ⟨Except.ok research, Except.ok outcome, Except.ok article,
        Except.ok deep, Except.error e, aw⟩ req).errorType = some "unknown" ∧
      (createContent ⟨Except.ok research, Except.ok outcome, Except.ok article,
        Except.ok deep, Except.error e, aw⟩ req).errorDetails =
        some (ErrorDetailsV.generic e.name e.stack)) ∧
    (∀ (clientId topic targetAudience : String) (body : CreateBody)
        (env : Env),
      body.topic = some topic → body.targetAudience = some targetAudience →
      postCreate (some clientId) body env =
        CreateResponse.envelope (createContent env
          { topic := topic
            targetAudience := targetAudience
            keywords := body.keywords.getD []
            desiredWordCount := some (body.desiredWordCount.getD 700)
            sources := body.sources.getD []
            briefing := body.briefing
            userId := some "web-user"
            clientId := some clientId })) := by
  refine ⟨?_, ?_, ?_, ?_, ?_, ?_⟩
  · intro e vE wE cE sE aw req
    refine ⟨rfl, rfl, rfl, rfl⟩
  · intro e research wE cE sE aw req
    refine ⟨rfl, rfl⟩
  · intro e research outcome cE sE aw req h5
    have hv : runFactValidator outcome research.facts =
        Except.ok ⟨outcome, if research.facts.length > 0 then
          mkRat (outcome.approved.length * 100) research.facts.length else 0⟩ := by
      simp [runFactValidator, h5]
    constructor <;> simp [createContent, hv, catchAll]
  · intro e research outcome article sE aw req h5
    have hv : runFactValidator outcome research.facts =
        Except.ok ⟨outcome, if research.facts.length > 0 then
          mkRat (outcome.approved.length * 100) research.facts.length else 0⟩ := by
      simp [runFactValidator, h5]
    constructor <;> simp [createContent, hv, catchAll]
  · intro e research outcome article deep aw req cres h5 hc
    have hv : runFactValidator outcome research.facts =
        Except.ok ⟨outcome, if research.facts.length > 0 then
          mkRat (outcome.approved.length * 100) research.facts.length else 0⟩ := by
      simp [runFactValidator, h5]
    constructor <;> simp [createContent, hv, hc, catchAll]
  · intro clientId topic targetAudience body env ht ha
    simp [postCreate, ht, ha]

/-- C6 witness: the amended behaviour at concrete inputs — a generic error
at the research stage and at the storage stage, and the route
pass-through. -/
theorem c6_unknown_error_amended_witness :
    (createContent ⟨Except.error typeErr, Except.ok outcomeC1,
        Except.ok artClean, Except.ok deepApproved, Except.ok ⟨"article-1"⟩,
        []⟩ reqC1).errorDetails =
      some (ErrorDetailsV.generic typeErr.name typeErr.stack) ∧
    (createContent ⟨Except.ok researchC1, Except.ok outcomeC1,
        Except.ok artClean, Except.ok deepApproved, Except.error typeErr,
        ["beste"]⟩ reqC1).errorType = some "unknown" ∧
    postCreate (some "client-1") bodyC6 envResearchFails =
      CreateResponse.envelope (createContent envResearchFails
        { topic := "E-Tech"
          targetAudience := "fleet managers"
          keywords := []
          desiredWordCount := some 700
          sources := []
          briefing := none
          userId := some "web-user"
          clientId := some "client-1" }) :=
  ⟨(c6_unknown_error_amended.1 typeErr (Except.ok outcomeC1)
      (Except.ok artClean) (Except.ok deepApproved) (Except.ok ⟨"article-1"⟩)
      [] reqC1).2.2.2,
   (c6_unknown_error_amended.2.2.2.2.1 typeErr researchC1 outcomeC1 artClean
      deepApproved ["beste"] reqC1
      { approved := true, overallScore := 87, checks := checksPass,
        issues := [], recommendations := [] }
      (by decide) rfl).1,
   c6_unknown_error_amended.2.2.2.2.2 "client-1" "E-Tech" "fleet managers"
     bodyC6 envResearchFails rfl rfl⟩

/-! ## C8 — rewrite and version lineage -/

theorem list_map_fix {α : Type} (l : List α) (f : α → α)
    (h : ∀ x ∈ l, f x = x) : l.map f = l := by
  induction l with
  | nil => rfl
  | cons a t ih =>
    simp only [List.map_cons, h a (List.mem_cons_self a t),
      ih (fun x hx => h x (List.mem_cons_of_mem a hx))]

/-- C8: the rewrite route resolves the new article's `parentArticleId` to
the existing article's `parentArticleId` when present and to the existing
article's own id otherwise, sets the new version to the existing version
plus one, stamps `version`, `parent_article_id` and `version_notes` only
onto the freshly inserted article, and leaves every pre-existing row —
the source article in particular — untouched: the resulting table is
exactly the old table plus one stamped new row. -/
theorem c8_rewrite_lineage
    (store : List ArticleRow) (clientId id notes : String)
    (cur newRow : ArticleRow) (rest : List ArticleRow) (v : Nat)
    (hfind : store.filter
      (fun r => r.id = id ∧ r.client_id = some clientId) = cur :: rest)
    (hnotes : notes ≠ "")
    (hver : cur.version = some v) (hv : v ≠ 0)
    (hpar : cur.parent_article_id ≠ some "")
    (hfresh : ∀ r ∈ store, r.id ≠ newRow.id) :
    rewritePost store (some clientId) id (some notes) (Except.ok newRow) =
      (RewriteResponse.ok newRow.id (v + 1)
        (cur.parent_article_id.getD cur.id),
       store ++ [{ newRow with
         version := some (v + 1)
         parent_article_id := some (cur.parent_article_id.getD cur.id)
         version_notes := some notes }]) ∧
    (∀ r ∈ store,
      r ∈ (rewritePost store (some clientId) id (some notes)
        (Except.ok newRow)).2) := by
  have hjsNat : jsOrNat cur.version 1 = v := by
    simp [jsOrNat, hver, hv]
  have hjsStr : jsOrStr cur.parent_article_id cur.id =
      cur.parent_article_id.getD cur.id := by
    cases hp : cur.parent_article_id with
    | none => simp [jsOrStr]
    | some s =>
      have hs : s ≠ "" := by
        intro hcon
        exact hpar (by rw [hp, hcon])
      simp [jsOrStr, hs]
  have hmain : rewritePost store (some clientId) id (some notes)
      (Except.ok newRow) =
      (RewriteResponse.ok newRow.id (v + 1)
        (cur.parent_article_id.getD cur.id),
       store ++ [{ newRow with
         version := some (v + 1)
         parent_article_id := some (cur.parent_article_id.getD cur.id)
         version_notes := some notes }]) := by
    simp only [rewritePost, hfind, if_neg hnotes]
    rw [List.map_append, list_map_fix store _ (fun r hr => if_neg (hfresh r hr))]
    simp [hjsNat, hjsStr]
  constructor
  · exact hmain
  · intro r hr
    rw [hmain]
    exact List.mem_append_left _ hr

/-- C8 witness: a concrete rewrite of a version-1 article. -/
theorem c8_rewrite_lineage_witness :
    rewritePost [rowV1] (some "client-1") "art-1" (some "meer detail")
      (Except.ok newRowC8) =
      (RewriteResponse.ok newRowC8.id (1 + 1)
        (rowV1.parent_article_id.getD rowV1.id),
       [rowV1] ++ [{ newRowC8 with
         version := some (1 + 1)
         parent_article_id := some (rowV1.parent_article_id.getD rowV1.id)
         version_notes := some "meer detail" }]) :=
  (c8_rewrite_lineage [rowV1] "client-1" "art-1" "meer detail" rowV1 newRowC8
    [] 1 (by decide) (by decide) rfl (by decide) (by decide) (by decide)).1

end RenaultContent
